/-
Verification of the city-statistics pipeline (CSV parsing, Region mapping,
RegionCollection aggregation/sorting, fixed-width rendering).

Shallow embedding notes:
* JavaScript numbers that occur in this program are integers produced by
  `parseInt`, the special values `Infinity`/`-Infinity` produced by division
  by zero and by `Math.max()` on an empty spread, and `NaN`.  They are
  modelled by `JSNum` (an integer, either infinity, or NaN); the transient
  rational value `(density * 100) / value` inside `Math.round(...)` is
  modelled by `JSRat`.  `Math.round` rounds half toward positive infinity,
  i.e. `⌊x + 1/2⌋`.
* `String.prototype.split` is modelled by `jsSplit`: with a non-empty
  separator it cuts at each leftmost non-overlapping occurrence (keeping
  empty pieces), and with the empty separator it splits into single
  characters — both as ECMAScript specifies.
* Option objects are modelled as structures with `Option` fields, `none`
  standing for an absent key.
-/
import Mathlib

/-- A JavaScript number as it occurs in this program: an exact integer,
positive or negative infinity, or NaN. -/
inductive JSNum where
  | num : ℤ → JSNum
  | posInf : JSNum
  | negInf : JSNum
  | nan : JSNum
deriving DecidableEq, Repr

/-- An intermediate JavaScript numeric value that may be fractional
(the quotient `(density * 100) / value` before `Math.round`). -/
inductive JSRat where
  | rat : ℚ → JSRat
  | posInf : JSRat
  | negInf : JSRat
  | nan : JSRat
deriving DecidableEq, Repr

/-- JavaScript multiplication by the literal 100 (`this.density * 100`). -/
def jsMul100 : JSNum → JSNum
  | .num a => .num (a * 100)
  | .posInf => .posInf
  | .negInf => .negInf
  | .nan => .nan

/-- JavaScript division `x / y` (IEEE-754 semantics on the values that occur
here: a nonzero finite number divided by zero gives a signed infinity,
`0 / 0` gives NaN, a finite number divided by an infinity gives 0). -/
def jsDiv : JSNum → JSNum → JSRat
  | .nan, _ => .nan
  | _, .nan => .nan
  | .num a, .num b =>
      if b ≠ 0 then .rat ((a : ℚ) / (b : ℚ))
      else if a > 0 then .posInf
      else if a < 0 then .negInf
      else .nan
  | .posInf, .num b => if b ≥ 0 then .posInf else .negInf
  | .negInf, .num b => if b ≥ 0 then .negInf else .posInf
  | .num _, .posInf => .rat 0
  | .num _, .negInf => .rat 0
  | .posInf, .posInf => .nan
  | .posInf, .negInf => .posInf
  | .negInf, .posInf => .negInf
  | .negInf, .negInf => .nan

/-- JavaScript `Math.round`: rounds half toward positive infinity
(`⌊x + 1/2⌋` for finite values), and is the identity on infinities and NaN. -/
def jsRound : JSRat → JSNum
  | .rat q => .num ⌊q + 1/2⌋
  | .posInf => .posInf
  | .negInf => .negInf
  | .nan => .nan

/-- JavaScript subtraction `x - y` (used only by the sort comparator). -/
def jsSub : JSNum → JSNum → JSNum
  | .nan, _ => .nan
  | _, .nan => .nan
  | .num a, .num b => .num (a - b)
  | .posInf, .num _ => .posInf
  | .posInf, .negInf => .posInf
  | .posInf, .posInf => .nan
  | .negInf, .num _ => .negInf
  | .negInf, .posInf => .negInf
  | .negInf, .negInf => .nan
  | .num _, .posInf => .negInf
  | .num _, .negInf => .posInf

/-- JavaScript `Math.max` on two arguments: NaN-absorbing, with the usual
order on integers and infinities. -/
def jsMax : JSNum → JSNum → JSNum
  | .nan, _ => .nan
  | _, .nan => .nan
  | .negInf, y => y
  | x, .negInf => x
  | .posInf, _ => .posInf
  | _, .posInf => .posInf
  | .num a, .num b => .num (max a b)

/-- JavaScript `Number.prototype.toString` on the values that occur here. -/
def jsToString : JSNum → String
  | .num z => toString z
  | .posInf => "Infinity"
  | .negInf => "-Infinity"
  | .nan => "NaN"

/-- The integer value of a list of ASCII digits, most significant first. -/
def digitsToInt (ds : List Char) : ℤ :=
  ds.foldl (fun a c => 10 * a + ((c.toNat : ℤ) - 48)) 0

/-- JavaScript `parseInt(s, 10)`: skip leading whitespace, consume an optional
sign, then consume the maximal run of decimal digits; NaN when that run is
empty, else the signed value of the digits (truncating at the first
non-digit). -/
def jsParseInt (s : String) : JSNum :=
  let cs := s.data.dropWhile (fun c => c.isWhitespace)
  let sign : ℤ := if cs.head? = some '-' then -1 else 1
  let body := if cs.head? = some '-' ∨ cs.head? = some '+' then cs.tail else cs
  let ds := body.takeWhile (fun c => c.isDigit)
  if ds.isEmpty then JSNum.nan else JSNum.num (sign * digitsToInt ds)

/-- `parseInt` applied to a possibly-absent field value
(`parseInt(undefined, 10)` is NaN, as the string "undefined" has no leading
digits). -/
def jsParseIntField : Option String → JSNum
  | some s => jsParseInt s
  | none => JSNum.nan

/-- JavaScript `String.prototype.padStart(n)` with the default space pad. -/
def padStart (s : String) (n : ℕ) : String :=
  if n ≤ s.length then s
  else String.mk (List.replicate (n - s.length) ' ') ++ s

/-- JavaScript `String.prototype.padEnd(n)` with the default space pad. -/
def padEnd (s : String) (n : ℕ) : String :=
  if n ≤ s.length then s
  else s ++ String.mk (List.replicate (n - s.length) ' ')

/-- Whether the first list is an initial segment of the second. -/
def leadsWith : List Char → List Char → Bool
  | [], _ => true
  | _ :: _, [] => false
  | a :: as, b :: bs => a = b && leadsWith as bs

/-- Worker for `jsSplit`: scan left to right, cutting at each occurrence of
the (non-empty) separator.  `fuel` only forces structural recursion; it is
always called with more fuel than there are characters left, so the
fuel-exhausted arm is never reached. -/
def jsSplitGo (sep : List Char) : ℕ → List Char → List Char → List (List Char)
  | 0, acc, rest => [acc.reverse ++ rest]
  | fuel + 1, acc, rest =>
    match rest with
    | [] => [acc.reverse]
    | c :: rs =>
      if leadsWith sep (c :: rs) then
        acc.reverse :: jsSplitGo sep fuel [] (List.drop sep.length (c :: rs))
      else
        jsSplitGo sep fuel (c :: acc) rs

/-- JavaScript `String.prototype.split(sep)` for a string separator. -/
def jsSplit (s sep : String) : List String :=
  match sep.data with
  | [] => s.data.map (fun c => String.mk [c])
  | c :: cs => (jsSplitGo (c :: cs) (s.data.length + 1) [] s.data).map String.mk

/-! ## CSV -/

/-- The resolved CSV configuration consumed by the parser. -/
structure CSVOptions where
  headers : Bool
  eol : String
  separator : String
deriving DecidableEq, Repr

/-- `CSV.DEFAULT_OPTIONS` of the exported variant:
`{ headers: true, eol: '\n', separator: ',' }`. -/
def CSV_DEFAULT_OPTIONS : CSVOptions := ⟨true, "\n", ","⟩

/-- A caller-supplied configuration object: each documented key may be
present or absent. -/
structure CSVUserOptions where
  headers : Option Bool
  eol : Option String
  separator : Option String
deriving DecidableEq, Repr

/-- Option resolution of the exported variant's `CSV.from`:
`{ ...CSV.DEFAULT_OPTIONS, ...options }` — each caller field, when present,
overwrites the default; nothing is mutated. -/
def CSV_from_resolve (u : CSVUserOptions) : CSVOptions :=
  ⟨u.headers.getD CSV_DEFAULT_OPTIONS.headers,
   u.eol.getD CSV_DEFAULT_OPTIONS.eol,
   u.separator.getD CSV_DEFAULT_OPTIONS.separator⟩

/-- An options object of the `soc-opt-class.js` variant, whose default
object spells the separator key `seprator`:
`{ headers: true, eol: '\n', seprator: ',' }`.  A caller writing the
documented key `separator` populates the `separator` field; the parser of
that variant reads the `seprator` field. -/
structure JSOptionsObjV1 where
  headers : Option Bool
  eol : Option String
  separator : Option String
  seprator : Option String
deriving DecidableEq, Repr

/-- `Object.assign(target, src)` on such objects: every key present on `src`
overwrites the corresponding key of `target` (and `target` itself is the
mutated result). -/
def objectAssign (target src : JSOptionsObjV1) : JSOptionsObjV1 :=
  ⟨src.headers <|> target.headers,
   src.eol <|> target.eol,
   src.separator <|> target.separator,
   src.seprator <|> target.seprator⟩

/-- The shared `CSV.DEFAULT_OPTIONS` of the `soc-opt-class.js` variant:
`{ headers: true, eol: '\n', seprator: ',' }` (note the misspelt key, and
the absence of a `separator` key). -/
def CSV_DEFAULT_OPTIONS_V1 : JSOptionsObjV1 :=
  ⟨some true, some "\n", none, some ","⟩

/-- The configuration effectively consumed by the `soc-opt-class.js`
variant after `CSV.from`'s `Object.assign(options || {}, CSV.DEFAULT_OPTIONS)`:
the parser of that variant reads `options.headers`, `options.eol` and the
misspelt `options.seprator` (an absent key reads as `undefined`; `getD`
defaults below are unreachable because the default object provides all
three keys). -/
def CSV_from_resolve_v1 (u : JSOptionsObjV1) : CSVOptions :=
  let m := objectAssign u CSV_DEFAULT_OPTIONS_V1
  ⟨m.headers.getD false, m.eol.getD "", m.seprator.getD ""⟩

/-- `CSV.#makeTable`: split the text on `eol` into rows, each row on the
separator into fields. -/
def makeTable (csv : String) (options : CSVOptions) : List (List String) :=
  (jsSplit csv options.eol).map (fun line => jsSplit line options.separator)

/-- A parsed record: the entry list built by
`headers.map((header, index) => [header, row[index]])`; a `none` value
stands for `undefined` (row shorter than the header list). -/
abbrev FieldRecord := List (String × Option String)

/-- `CSV.#createRecord(headers, row)`: zip each header positionally with
`row[index]`. -/
def createRecord (headers row : List String) : FieldRecord :=
  headers.enum.map (fun p => (p.2, row[p.1]?))

/-- Property lookup on the object built by `Object.fromEntries`: the last
entry for a key wins; an absent key or an `undefined` value reads as
`undefined` (`none`). -/
def recordGet (rec : FieldRecord) (k : String) : Option String :=
  match (List.filter (fun e => e.1 = k) rec).getLast? with
  | some e => e.2
  | none => none

/-- `CSV.#withHeaders(table)`: row 0 is the header row, the remaining rows
become records. -/
def withHeaders (table : List (List String)) : List FieldRecord :=
  match table with
  | [] => []
  | headers :: body => body.map (fun row => createRecord headers row)

/-- `CSV.parse()` in the `headers: true` mode. -/
def CSV_parseWithHeaders (csv : String) (options : CSVOptions) : List FieldRecord :=
  withHeaders (makeTable csv options)

/-! ## Region -/

/-- The `Region` domain entity. -/
structure Region where
  city : String
  population : JSNum
  area : JSNum
  density : JSNum
  country : String
deriving DecidableEq, Repr

/-- `Region.prototype.densityRelativeTo(value)`:
`Math.round((this.density * 100) / value)`. -/
def Region.densityRelativeTo (r : Region) (value : JSNum) : JSNum :=
  jsRound (jsDiv (jsMul100 r.density) value)

/-- `Region.from({city, population, area, density, country})`: numeric
fields via `parseInt(·, 10)`, `city`/`country` passed through.  (An absent
`city`/`country` would be the value `undefined` in JavaScript; no claim
concerns that case and it is modelled as `""`.) -/
def Region.fromRecord (rec : FieldRecord) : Region :=
  { city := (recordGet rec "city").getD ""
    population := jsParseIntField (recordGet rec "population")
    area := jsParseIntField (recordGet rec "area")
    density := jsParseIntField (recordGet rec "density")
    country := (recordGet rec "country").getD "" }

/-! ## RegionCollection -/

/-- `RegionCollection.prototype.maxDensity()`:
`Math.max(...this.regions.map(r => r.density))` — a left fold of `Math.max`
starting from `-Infinity`. -/
def maxDensity (regions : List Region) : JSNum :=
  (regions.map (fun r => r.density)).foldl jsMax JSNum.negInf

/-- `RegionCollection.prototype.pop()`: `Array.prototype.pop` removes the
last element and does nothing on an empty array. -/
def popLast (regions : List Region) : List Region :=
  regions.dropLast

/-- The sort comparator `(a, b) => b.densityRelativeTo(m) - a.densityRelativeTo(m)`
turned into the "a may precede b" Boolean that a stable conforming
`Array.prototype.sort` realises: `a` precedes `b` when the comparator value
is ≤ 0, a NaN comparator value being treated as 0. -/
def sortLE (m : JSNum) (a b : Region) : Bool :=
  match jsSub (b.densityRelativeTo m) (a.densityRelativeTo m) with
  | .num z => z ≤ 0
  | .negInf => true
  | .posInf => false
  | .nan => true

/-- `RegionCollection.prototype.sortByRelativeDensity()`: compute
`m = maxDensity()` once, then stably sort by the comparator
(ECMAScript requires `Array.prototype.sort` to be stable and, for a
consistent comparator, to order so that each element compares ≤ 0 against
its successors; `List.mergeSort` realises exactly that). -/
def sortByRelativeDensity (regions : List Region) : List Region :=
  let m := maxDensity regions
  regions.mergeSort (sortLE m)

/-! ## RegionCollectionView -/

/-- `RegionCollectionView.DEFAULT_OPTIONS`. -/
structure ViewOptions where
  relativeDensity : Bool
deriving DecidableEq, Repr

/-- `RegionCollectionView.#makeDefaultFragments(region)`. -/
def makeDefaultFragments (r : Region) : List String :=
  [padEnd r.city 18,
   padStart (jsToString r.population) 10,
   padStart (jsToString r.area) 8,
   padStart (jsToString r.density) 8,
   padStart r.country 18]

/-- `RegionCollectionView.#makeRelativeDensityFragment(region)`: recompute
`maxDensity()` from the collection's current contents at render time. -/
def makeRelativeDensityFragment (regions : List Region) (r : Region) : String :=
  padStart (jsToString (r.densityRelativeTo (maxDensity regions))) 6

/-- `RegionCollectionView.#composeLine(region, options)`. -/
def composeLine (regions : List Region) (options : ViewOptions) (r : Region) : String :=
  let fragments := makeDefaultFragments r
  let fragments :=
    if options.relativeDensity then fragments ++ [makeRelativeDensityFragment regions r]
    else fragments
  String.join fragments

/-- The payload of `RegionCollectionView.prototype.print`'s single
`console.log` call: the composed lines joined by `'\n'`. -/
def printPayload (regions : List Region) (options : ViewOptions) : String :=
  String.intercalate "\n" (regions.map (fun r => composeLine regions options r))

/-! ## Auxiliary notions used by the statements -/

/-- Whether a region's `density` field is a finite number (an integer in this
model), rather than an infinity or NaN. -/
def finiteDensity (r : Region) : Bool :=
  match r.density with
  | .num _ => true
  | _ => false

/-- The integer value of a region's relative-density key against the
reference `m` (meaningful when that key is finite; 0 as a don't-care
otherwise). -/
def relKeyZ (m : JSNum) (r : Region) : ℤ :=
  match r.densityRelativeTo m with
  | .num z => z
  | _ => 0

/-- The integer-key descending order the comparator realises on finite
keys. -/
def goodLE (m : JSNum) (a b : Region) : Bool :=
  relKeyZ m b ≤ relKeyZ m a

/-- The mutations of a `RegionCollection` (`pop`, `sortByRelativeDensity`). -/
inductive RCOp where
  | pop : RCOp
  | sortRel : RCOp
deriving DecidableEq, Repr

/-- Run one mutation. -/
def applyOp : RCOp → List Region → List Region
  | .pop, regions => popLast regions
  | .sortRel, regions => sortByRelativeDensity regions

/-- Run a sequence of mutations, first one first. -/
def applyOps (ops : List RCOp) (regions : List Region) : List Region :=
  ops.foldl (fun s op => applyOp op s) regions

/-! ## Concrete fixtures (from the repository's test file and the spec's
examples) -/

/-- Test fixture: density 20. -/
def regionA : Region := ⟨"CityA", .num 1000, .num 50, .num 20, "CountryA"⟩

/-- Test fixture: density 30. -/
def regionB : Region := ⟨"CityB", .num 2000, .num 100, .num 30, "CountryB"⟩

/-- Test fixture: density 25. -/
def regionC : Region := ⟨"CityC", .num 3000, .num 150, .num 25, "CountryC"⟩

/-! ## Claims -/

/-- C8: parsing the empty string with the default options (headers on)
yields an empty record sequence: the split produces the single empty row,
which becomes a header row `[""]` with zero data rows. -/
theorem parse_empty_string_yields_no_records :
    makeTable "" CSV_DEFAULT_OPTIONS = [[""]] ∧
    CSV_parseWithHeaders "" CSV_DEFAULT_OPTIONS = [] :=
  ⟨rfl, rfl⟩

/-- C10: for a region whose density is 0, `densityRelativeTo(0)` is NaN
(`0 * 100 / 0`), not positive infinity; in a collection whose maximum
density is 0, such a region's relative-density key is NaN and its rendered
relative-density fragment is `"   NaN"`. -/
theorem densityRelativeTo_zero_zero_is_nan :
    (Region.mk "Z" (.num 0) (.num 0) (.num 0) "C").densityRelativeTo (JSNum.num 0) = JSNum.nan ∧
    JSNum.nan ≠ JSNum.posInf ∧
    maxDensity [Region.mk "Z" (.num 0) (.num 0) (.num 0) "C"] = JSNum.num 0 ∧
    makeRelativeDensityFragment [Region.mk "Z" (.num 0) (.num 0) (.num 0) "C"]
      (Region.mk "Z" (.num 0) (.num 0) (.num 0) "C") = "   NaN" :=
  ⟨rfl, by decide, rfl, rfl⟩

/-- C2 evaluation: in the `soc-opt-class.js` variant,
`Object.assign(options || {}, CSV.DEFAULT_OPTIONS)` lets the shared default
object overwrite the caller-supplied fields, and the parser reads the
misspelt `seprator` key which a caller writing `separator` never sets; so
for the caller configuration `{eol: "\r\n", separator: ";"}` the effective
configuration is the constant default `{headers: true, eol: "\n",
separator(,misspelt): ","}`, contradicting the claim (and the repository's
own test `CSV.from allows overriding default options`).  The exported
variant's `{...CSV.DEFAULT_OPTIONS, ...options}` resolves it as the claim
states. -/
theorem CSV_from_v1_discards_caller_options :
    CSV_from_resolve_v1 ⟨none, some "\r\n", some ";", none⟩ = ⟨true, "\n", ","⟩ ∧
    CSV_from_resolve_v1 ⟨none, some "\r\n", some ";", none⟩ ≠
      CSVOptions.mk true "\r\n" ";" ∧
    CSV_from_resolve ⟨none, some "\r\n", some ";"⟩ = ⟨true, "\r\n", ";"⟩ :=
  ⟨rfl, by decide, rfl⟩

/-- C4: `densityRelativeTo` yields 50 for density 200 against reference 400,
and yields positive infinity (not a division fault) against reference 0 for
any region with positive finite density. -/
theorem densityRelativeTo_values (r : Region) (d : ℤ)
    (hd : r.density = JSNum.num d) (hpos : 0 < d) :
    (Region.mk "City" (.num 1000) (.num 100) (.num 200) "Country").densityRelativeTo
      (JSNum.num 400) = JSNum.num 50 ∧
    r.densityRelativeTo (JSNum.num 0) = JSNum.posInf := by
  refine ⟨?_, ?_⟩
  · show jsRound (jsDiv (jsMul100 (JSNum.num 200)) (JSNum.num 400)) = JSNum.num 50
    norm_num [jsMul100, jsDiv, jsRound]
  have h100 : 0 < d * 100 := by omega
  simp [Region.densityRelativeTo, hd, jsMul100, jsDiv, jsRound, h100]

/-- Witness for C4 at a concrete region of density 200. -/
theorem densityRelativeTo_values_witness :
    (Region.mk "C" (.num 1) (.num 1) (.num 200) "K").density = JSNum.num 200 ∧
    (Region.mk "C" (.num 1) (.num 1) (.num 200) "K").densityRelativeTo
      (JSNum.num 0) = JSNum.posInf :=
  ⟨rfl, (densityRelativeTo_values (Region.mk "C" (.num 1) (.num 1) (.num 200) "K")
    200 rfl (by decide)).2⟩

/-- C9: `pop` never fails: on the empty collection it leaves the collection
empty, and on a non-empty collection (any `l ++ [x]`) it removes exactly
the former last element, leaving every earlier element unchanged in place
(hence the size drops by one). -/
theorem popLast_total_and_exact (l : List Region) (x : Region) :
    popLast ([] : List Region) = [] ∧
    popLast (l ++ [x]) = l ∧
    (popLast (l ++ [x])).length + 1 = (l ++ [x]).length := by
  refine ⟨rfl, ?_, ?_⟩ <;> simp [popLast]

/-- C5: `Region.from` parses population, area and density with truncating
base-10 `parseInt` (so `"783.8"` parses to 783), passes city and country
through unchanged, and a numeric field whose value starts with a character
that cannot begin a number (not a digit, sign, or leading whitespace)
yields the NaN sentinel rather than an error. -/
theorem Region_fromRecord_parsing (rec : FieldRecord) (c p a d co s : String)
    (ch : Char) (rest : List Char)
    (hc : recordGet rec "city" = some c)
    (hp : recordGet rec "population" = some p)
    (ha : recordGet rec "area" = some a)
    (hd : recordGet rec "density" = some d)
    (hco : recordGet rec "country" = some co)
    (hs : s.data = ch :: rest)
    (hdig : ch.isDigit = false) (hplus : ch ≠ '+') (hminus : ch ≠ '-')
    (hws : ch.isWhitespace = false) :
    (Region.fromRecord rec).city = c ∧
    (Region.fromRecord rec).country = co ∧
    (Region.fromRecord rec).population = jsParseInt p ∧
    (Region.fromRecord rec).area = jsParseInt a ∧
    (Region.fromRecord rec).density = jsParseInt d ∧
    jsParseInt "783.8" = JSNum.num 783 ∧
    jsParseInt s = JSNum.nan := by
  refine ⟨?_, ?_, ?_, ?_, ?_, by decide, ?_⟩
  · simp [Region.fromRecord, hc]
  · simp [Region.fromRecord, hco]
  · simp [Region.fromRecord, hp, jsParseIntField]
  · simp [Region.fromRecord, ha, jsParseIntField]
  · simp [Region.fromRecord, hd, jsParseIntField]
  · simp [jsParseInt, hs, List.dropWhile_cons, hws, hdig, hplus, hminus,
      List.takeWhile_cons]

/-- Witness for C5 at a concrete record whose area field is "783.8" and a
concrete unparseable string "x12". -/
theorem Region_fromRecord_parsing_witness :
    (Region.fromRecord (createRecord ["city", "population", "area", "density", "country"]
       ["X", "8000000", "783.8", "10000", "Y"])).city = "X" ∧
    (Region.fromRecord (createRecord ["city", "population", "area", "density", "country"]
       ["X", "8000000", "783.8", "10000", "Y"])).country = "Y" ∧
    (Region.fromRecord (createRecord ["city", "population", "area", "density", "country"]
       ["X", "8000000", "783.8", "10000", "Y"])).population = jsParseInt "8000000" ∧
    (Region.fromRecord (createRecord ["city", "population", "area", "density", "country"]
       ["X", "8000000", "783.8", "10000", "Y"])).area = jsParseInt "783.8" ∧
    (Region.fromRecord (createRecord ["city", "population", "area", "density", "country"]
       ["X", "8000000", "783.8", "10000", "Y"])).density = jsParseInt "10000" ∧
    jsParseInt "783.8" = JSNum.num 783 ∧
    jsParseInt "x12" = JSNum.nan :=
  Region_fromRecord_parsing
    (createRecord ["city", "population", "area", "density", "country"]
      ["X", "8000000", "783.8", "10000", "Y"])
    "X" "8000000" "783.8" "10000" "Y" "x12" 'x' ['1', '2']
    (by decide) (by decide) (by decide) (by decide) (by decide)
    rfl (by decide) (by decide) (by decide) (by decide)

/-- C7: a record is the positional zip of the header row with the data row:
its keys are exactly the headers in order, entry `j` pairs header `j` with
`row[j]` (which is undefined/`none` when the row is shorter than the
headers), and values beyond the header count are dropped; the two concrete
cases illustrate a short row and a long row. -/
theorem createRecord_positional_zip (headers row : List String) :
    ((createRecord headers row).map Prod.fst = headers) ∧
    ((createRecord headers row).length = headers.length) ∧
    (∀ j : ℕ, (createRecord headers row)[j]? =
      headers[j]?.map (fun h => (h, row[j]?))) ∧
    (createRecord ["a", "b", "c"] ["1"] =
      [("a", some "1"), ("b", none), ("c", none)]) ∧
    (createRecord ["a"] ["1", "2", "3"] = [("a", some "1")]) := by
  refine ⟨?_, ?_, ?_, by decide, by decide⟩
  · simp only [createRecord, List.map_map]
    exact List.enum_map_snd headers
  · simp [createRecord]
  · intro j
    simp only [createRecord, List.getElem?_map, List.getElem?_enum]
    cases headers[j]? <;> rfl

/-- C3: each rendered line is the in-order concatenation of the city
left-padded to width 18, population right-aligned to width 10, area
right-aligned to width 8, density right-aligned to width 8, country
right-aligned to width 18, and — when the `relativeDensity` option is
enabled — the relative density recomputed against `maxDensity()` of the
collection's current contents, right-aligned to width 6; the lines are
joined by `'\n'` into the single written payload. -/
theorem composeLine_print_layout (regions : List Region) (options : ViewOptions)
    (r : Region) :
    composeLine regions options r =
      padEnd r.city 18 ++ padStart (jsToString r.population) 10 ++
      padStart (jsToString r.area) 8 ++ padStart (jsToString r.density) 8 ++
      padStart r.country 18 ++
      (if options.relativeDensity then
        padStart (jsToString (r.densityRelativeTo (maxDensity regions))) 6
      else "") ∧
    printPayload regions options =
      String.intercalate "\n" (regions.map (fun x => composeLine regions options x)) := by
  constructor
  · cases hrel : options.relativeDensity <;>
      simp [composeLine, makeDefaultFragments, makeRelativeDensityFragment, hrel,
        String.join, List.foldl, String.append_assoc]
  · rfl

/-- `Math.max(-Infinity, y) = y`. -/
theorem jsMax_negInf_left (y : JSNum) : jsMax JSNum.negInf y = y := by
  cases y <;> rfl

/-- `finiteDensity` unfolded. -/
theorem finiteDensity_iff (r : Region) :
    finiteDensity r = true ↔ ∃ z : ℤ, r.density = JSNum.num z := by
  cases h : r.density <;> simp [finiteDensity, h]

/-- A `Math.max` fold over finite values starting from a finite value is the
attained least upper bound. -/
theorem foldl_jsMax_num (ds : List JSNum)
    (hfin : ∀ x ∈ ds, ∃ z : ℤ, x = JSNum.num z) (a : ℤ) :
    ∃ μ : ℤ, ds.foldl jsMax (JSNum.num a) = JSNum.num μ ∧ a ≤ μ ∧
      (∀ x ∈ ds, ∃ z : ℤ, x = JSNum.num z ∧ z ≤ μ) ∧
      (μ = a ∨ JSNum.num μ ∈ ds) := by
  induction ds generalizing a with
  | nil => exact ⟨a, rfl, le_refl a, by simp, Or.inl rfl⟩
  | cons x t ih =>
    obtain ⟨z, hz⟩ := hfin x (by simp)
    subst hz
    obtain ⟨μ, h1, h2, h3, h4⟩ := ih (fun y hy => hfin y (by simp [hy])) (max a z)
    refine ⟨μ, by simpa [jsMax] using h1, le_trans (le_max_left a z) h2, ?_, ?_⟩
    · intro y hy
      rcases List.mem_cons.mp hy with hy | hy
      · exact ⟨z, hy, le_trans (le_max_right a z) h2⟩
      · exact h3 y hy
    · rcases h4 with h4 | h4
      · rcases max_choice a z with hm | hm
        · exact Or.inl (h4.trans hm)
        · exact Or.inr (by simp [h4, hm])
      · exact Or.inr (by simp [h4])

/-- `maxDensity` of a non-empty collection of finite densities is the
attained maximum density. -/
theorem maxDensity_char (l : List Region) (hne : l ≠ [])
    (hfin : ∀ r ∈ l, finiteDensity r = true) :
    ∃ μ : ℤ, maxDensity l = JSNum.num μ ∧
      (∀ r ∈ l, ∃ z : ℤ, r.density = JSNum.num z ∧ z ≤ μ) ∧
      (∃ r ∈ l, r.density = JSNum.num μ) := by
  match l with
  | [] => exact absurd rfl hne
  | r :: t =>
    obtain ⟨d, hd⟩ := (finiteDensity_iff r).mp (hfin r (by simp))
    have hstep : maxDensity (r :: t) =
        (t.map (fun x => x.density)).foldl jsMax (JSNum.num d) := by
      simp [maxDensity, jsMax_negInf_left, hd]
    obtain ⟨μ, h1, h2, h3, h4⟩ :=
      foldl_jsMax_num (t.map (fun x => x.density))
        (by
          intro x hx
          obtain ⟨r', hr', hx'⟩ := List.mem_map.mp hx
          obtain ⟨z, hz⟩ := (finiteDensity_iff r').mp (hfin r' (by simp [hr']))
          exact ⟨z, by rw [← hx', hz]⟩) d
    refine ⟨μ, by rw [hstep, h1], ?_, ?_⟩
    · intro x hx
      rcases List.mem_cons.mp hx with hx | hx
      · exact ⟨d, by rw [hx, hd], by
          subst hx
          exact le_trans (le_refl d) h2⟩
      · exact h3 x.density (List.mem_map.mpr ⟨x, hx, rfl⟩)
    · rcases h4 with h4 | h4
      · exact ⟨r, by simp, by rw [hd, h4]⟩
      · obtain ⟨r', hr', hx'⟩ := List.mem_map.mp h4
        exact ⟨r', List.mem_cons_of_mem r hr', hx'⟩

/-- Each mutation only keeps (a subset of) the existing elements. -/
theorem applyOp_subset (op : RCOp) (l : List Region) :
    ∀ r ∈ applyOp op l, r ∈ l := by
  cases op with
  | pop =>
    intro r hr
    exact (List.dropLast_sublist l).subset hr
  | sortRel =>
    intro r hr
    exact List.mem_mergeSort.mp hr

/-- A whole mutation sequence only keeps existing elements. -/
theorem applyOps_subset (ops : List RCOp) (l : List Region) :
    ∀ r ∈ applyOps ops l, r ∈ l := by
  induction ops generalizing l with
  | nil => intro r hr; exact hr
  | cons op ops ih =>
    intro r hr
    exact applyOp_subset op l r (ih (applyOp op l) r hr)

/-- C6: after any sequence of `pop` / `sortByRelativeDensity` mutations,
`maxDensity()` is the attained maximum density of the *current* elements
(for finite densities), and on the empty collection it is negative
infinity. -/
theorem maxDensity_always_fresh (l : List Region) (ops : List RCOp)
    (hfin : ∀ r ∈ l, finiteDensity r = true)
    (hne : applyOps ops l ≠ []) :
    maxDensity ([] : List Region) = JSNum.negInf ∧
    ∃ μ : ℤ, maxDensity (applyOps ops l) = JSNum.num μ ∧
      (∀ r ∈ applyOps ops l, ∃ z : ℤ, r.density = JSNum.num z ∧ z ≤ μ) ∧
      (∃ r ∈ applyOps ops l, r.density = JSNum.num μ) :=
  ⟨rfl, maxDensity_char (applyOps ops l) hne
    (fun r hr => hfin r (applyOps_subset ops l r hr))⟩

/-- Witness for C6: popping the two-element collection whose last element
holds the maximum (density 30) leaves `[regionA]`, and `maxDensity` now
reports the remaining maximum. -/
theorem maxDensity_always_fresh_witness :
    maxDensity ([] : List Region) = JSNum.negInf ∧
    ∃ μ : ℤ, maxDensity (applyOps [RCOp.pop] [regionA, regionB]) = JSNum.num μ ∧
      (∀ r ∈ applyOps [RCOp.pop] [regionA, regionB],
        ∃ z : ℤ, r.density = JSNum.num z ∧ z ≤ μ) ∧
      (∃ r ∈ applyOps [RCOp.pop] [regionA, regionB], r.density = JSNum.num μ) :=
  maxDensity_always_fresh [regionA, regionB] [RCOp.pop] (by decide) (by decide)

/-- Relative density of a finite density against a non-zero finite
reference: `round(density * 100 / value)` as an integer. -/
theorem densityRelativeTo_finite (r : Region) (d μ : ℤ)
    (hd : r.density = JSNum.num d) (hμ : μ ≠ 0) :
    r.densityRelativeTo (JSNum.num μ) =
      JSNum.num ⌊((d * 100 : ℤ) : ℚ) / (μ : ℚ) + 1/2⌋ := by
  simp [Region.densityRelativeTo, hd, jsMul100, jsDiv, hμ, jsRound]

/-- In the finite case, the relative-density key is `relKeyZ`. -/
theorem relKeyZ_spec (r : Region) (d μ : ℤ)
    (hd : r.density = JSNum.num d) (hμ : μ ≠ 0) :
    r.densityRelativeTo (JSNum.num μ) = JSNum.num (relKeyZ (JSNum.num μ) r) := by
  have h := densityRelativeTo_finite r d μ hd hμ
  simp [relKeyZ, h]

/-- On regions with finite densities and a non-zero finite reference, the
JavaScript comparator realises exactly the integer-key descending order. -/
theorem sortLE_eq_goodLE (μ : ℤ) (a b : Region)
    (ha : finiteDensity a = true) (hb : finiteDensity b = true) (hμ : μ ≠ 0) :
    sortLE (JSNum.num μ) a b = goodLE (JSNum.num μ) a b := by
  obtain ⟨da, hda⟩ := (finiteDensity_iff a).mp ha
  obtain ⟨db, hdb⟩ := (finiteDensity_iff b).mp hb
  have hka := relKeyZ_spec a da μ hda hμ
  have hkb := relKeyZ_spec b db μ hdb hμ
  simp [sortLE, goodLE, hka, hkb, jsSub, sub_nonpos]

/-- `mergeSort` only consults the comparator on members of the list. -/
theorem mergeSort_congr {α : Type} (l : List α) (r s : α → α → Bool)
    (h : ∀ a ∈ l, ∀ b ∈ l, r a b = s a b) :
    l.mergeSort r = l.mergeSort s := by
  have e := List.map_mergeSort (f := @id α) (l := l) (r := r) (s := s) h
  simpa using e

/-- The integer-key descending order is transitive. -/
theorem goodLE_trans (m : JSNum) : ∀ a b c : Region,
    goodLE m a b → goodLE m b c → goodLE m a c := by
  intro a b c hab hbc
  simp only [goodLE, decide_eq_true_eq] at hab hbc ⊢
  omega

/-- The integer-key descending order is total. -/
theorem goodLE_total (m : JSNum) : ∀ a b : Region,
    goodLE m a b || goodLE m b a := by
  intro a b
  simp only [goodLE, Bool.or_eq_true, decide_eq_true_eq]
  omega

/-- C1: on a collection of finite densities whose maximum `m` is a non-zero
number, `sortByRelativeDensity` computes `m` once and reorders the elements
into a permutation that is descending in the rounded key
`round(density * 100 / m)`, and any two elements with equal rounded keys
keep their relative input order (stability). -/
theorem sortByRelativeDensity_correct (l : List Region) (μ : ℤ)
    (hfin : ∀ r ∈ l, finiteDensity r = true)
    (hm : maxDensity l = JSNum.num μ) (hμ : μ ≠ 0) :
    List.Perm (sortByRelativeDensity l) l ∧
    (∀ r : Region, ∀ d : ℤ, r ∈ l → r.density = JSNum.num d →
      r.densityRelativeTo (maxDensity l) =
        JSNum.num ⌊((d * 100 : ℤ) : ℚ) / (μ : ℚ) + 1/2⌋) ∧
    List.Pairwise
      (fun a b => relKeyZ (maxDensity l) b ≤ relKeyZ (maxDensity l) a)
      (sortByRelativeDensity l) ∧
    (∀ a b : Region, List.Sublist [a, b] l →
      relKeyZ (maxDensity l) a = relKeyZ (maxDensity l) b →
      List.Sublist [a, b] (sortByRelativeDensity l)) := by
  have hsort : sortByRelativeDensity l = l.mergeSort (goodLE (maxDensity l)) := by
    have hagree : ∀ a ∈ l, ∀ b ∈ l,
        sortLE (maxDensity l) a b = goodLE (maxDensity l) a b := by
      intro a ha b hb
      rw [hm]
      exact sortLE_eq_goodLE μ a b (hfin a ha) (hfin b hb) hμ
    exact mergeSort_congr l _ _ hagree
  refine ⟨?_, ?_, ?_, ?_⟩
  · simpa [sortByRelativeDensity] using
      List.mergeSort_perm l (sortLE (maxDensity l))
  · intro r d hr hd
    rw [hm]
    exact densityRelativeTo_finite r d μ hd hμ
  · rw [hsort]
    have hp := List.sorted_mergeSort (goodLE_trans (maxDensity l))
      (goodLE_total (maxDensity l)) l
    exact hp.imp (fun h => by simpa only [goodLE, decide_eq_true_eq] using h)
  · intro a b hab hkey
    rw [hsort]
    apply List.pair_sublist_mergeSort (goodLE_trans (maxDensity l))
      (goodLE_total (maxDensity l)) ?_ hab
    simp [goodLE, hkey]

/-- Witness for C1 on the spec's example densities [20, 30, 25]
(maximum density 30). -/
theorem sortByRelativeDensity_correct_witness :
    List.Perm (sortByRelativeDensity [regionA, regionB, regionC])
      [regionA, regionB, regionC] ∧
    (∀ r : Region, ∀ d : ℤ, r ∈ [regionA, regionB, regionC] →
      r.density = JSNum.num d →
      r.densityRelativeTo (maxDensity [regionA, regionB, regionC]) =
        JSNum.num ⌊((d * 100 : ℤ) : ℚ) / ((30 : ℤ) : ℚ) + 1/2⌋) ∧
    List.Pairwise
      (fun a b => relKeyZ (maxDensity [regionA, regionB, regionC]) b ≤
        relKeyZ (maxDensity [regionA, regionB, regionC]) a)
      (sortByRelativeDensity [regionA, regionB, regionC]) ∧
    (∀ a b : Region, List.Sublist [a, b] [regionA, regionB, regionC] →
      relKeyZ (maxDensity [regionA, regionB, regionC]) a =
        relKeyZ (maxDensity [regionA, regionB, regionC]) b →
      List.Sublist [a, b] (sortByRelativeDensity [regionA, regionB, regionC])) :=
  sortByRelativeDensity_correct [regionA, regionB, regionC] 30
    (by decide) (by decide) (by decide)
